import Mathlib

/-
Verification of the ORBIT_Agent repository: a shallow embedding of the
modules that implement the approval-gated posting workflow, with theorems
settling the behavioural claims about them.

Modelling conventions:
- Python strings are Lean `String`s; character-level operations (slicing,
  split, strip) are modelled over `List Char`, matching Python semantics
  of code-point sequences.  Python `str.isspace` is approximated by
  `Char.isWhitespace` (space, tab, CR, LF), which covers every character
  the repository manipulates.
- Network calls are oracles passed in as parameters: an HTTP endpoint is a
  function from the request index to the outcome of that request, so the
  number of requests a function issues is observable in the embedding.
- The durable files (state.json, pending_approvals.json,
  replied_tweets.json, .tele_offset.json) are threaded explicitly: each
  function takes the current file contents and returns the new contents.
- Python exceptions that escape a function are modelled with an explicit
  error constructor; exceptions caught inside the source function are
  resolved inside the embedding, exactly as the source catches them.
-/

namespace Orbit

/-! ## String helpers, modelling Python primitives (reply_writer.py uses
`str.strip`, `str.split()`, `" ".join`, slicing; telegram_bot.py uses
`str.startswith` and `str.split(":")`). -/

/-- Python `str.split()` with no separator: split on runs of whitespace,
discarding empty fields.  Accumulator variant, structural on the input. -/
def pySplitWsAux (acc : List Char) : List Char → List (List Char)
  | [] => if acc.isEmpty then [] else [acc.reverse]
  | c :: cs =>
    if c.isWhitespace then
      if acc.isEmpty then pySplitWsAux [] cs
      else acc.reverse :: pySplitWsAux [] cs
    else pySplitWsAux (c :: acc) cs

/-- Python `str.split()` with no separator. -/
def pySplitWs (l : List Char) : List (List Char) := pySplitWsAux [] l

/-- Python `str.strip()`: drop leading and trailing whitespace. -/
def pyStripChars (l : List Char) : List Char :=
  ((l.dropWhile Char.isWhitespace).reverse.dropWhile Char.isWhitespace).reverse

/-- Python `" ".join(words)`. -/
def pyJoinSpace : List (List Char) → List Char
  | [] => []
  | [w] => w
  | w :: ws => w ++ ' ' :: pyJoinSpace ws

/-- Python `s.startswith(pre)`. -/
def pyStartswith : List Char → List Char → Bool
  | [], _ => true
  | _ :: _, [] => false
  | p :: ps, c :: cs => if p = c then pyStartswith ps cs else false

/-- Python `s.split(sep)` for a one-character separator, accumulator
variant: splits at every occurrence of `sep`, keeping empty fields. -/
def pySplitOnAux (sep : Char) (acc : List Char) : List Char → List (List Char)
  | [] => [acc.reverse]
  | c :: cs =>
    if c = sep then acc.reverse :: pySplitOnAux sep [] cs
    else pySplitOnAux sep (c :: acc) cs

/-- Python `s.split(sep)` for a one-character separator. -/
def pySplitOn (sep : Char) (l : List Char) : List (List Char) :=
  pySplitOnAux sep [] l

/-- Python truthiness of an optional string: `None` and `""` are falsy
(`if not all([client_id, ...])` in poster.post_tweet). -/
def pyTruthy : Option String → Bool
  | none => false
  | some s => !s.isEmpty

/-! ## reply_writer.py -/

/-- The canned reply returned by `write_reply` for a blank input post
(reply_writer.py line 79). -/
def FALLBACK_REPLY : String :=
  "Not much to react to here—what outcome are you aiming for?"

/-- `write_reply(post_text)` from reply_writer.py.  The chat-completion
call is external; its raw content (`resp.choices[0].message.content or ""`)
is the `model_output` parameter.  A blank `post_text` short-circuits to the
canned fallback; otherwise the model output is stripped, whitespace-collapsed
(`" ".join(text.split())`) and hard-truncated to 200 characters (`[:200]`). -/
def write_reply (post_text : String) (model_output : String) : String :=
  if (pyStripChars post_text.data).isEmpty then FALLBACK_REPLY
  else
    String.mk ((pyJoinSpace (pySplitWs (pyStripChars model_output.data))).take 200)

/-! ## poster.py -/

/-- The `data` object inside a successful create-post response body
(`tweet_data.get("data", {}).get("id")` and `.get("text")`). -/
structure TweetData where
  id : Option String
  text : Option String
deriving DecidableEq, Repr

/-- An HTTP response as poster.py observes it: status code, raw body text,
and the result of `.json()` (`none` models a `json.JSONDecodeError`). -/
structure HttpResponse where
  status_code : Nat
  text : String
  json : Option TweetData
deriving DecidableEq, Repr

/-- Outcome of one `requests.post` call: either a response, or a
`requests.exceptions.RequestException` raised by the library. -/
inductive NetOutcome where
  | resp (r : HttpResponse)
  | requestError (msg : String)
deriving DecidableEq, Repr

/-- The dictionary `post_tweet` returns (poster.py): `success` plus the
optional fields populated on the various paths. -/
structure PostResult where
  success : Bool
  tweet_id : Option String := none
  text : Option String := none
  error : Option String := none
  status_code : Option Nat := none
  response_body : Option String := none
deriving DecidableEq, Repr

/-- `_post_tweet_with_token(text, access_token, in_reply_to)` from
poster.py lines 91-144.  `endpoint n` is the outcome of the n-th
`requests.post` to the create-post URL; the second component of the result
counts how many requests the function issued.  The source makes exactly one
request: on status 201 it parses the body (a parse failure is caught and
returned as `success=false`), on any other status it returns `success=false`
with the status and raw body, and a `RequestException` is caught and
returned as `success=false`.  There is no loop, retry, or sleep. -/
def post_tweet_with_token (text : String) (access_token : String)
    (in_reply_to : Option String) (endpoint : Nat → NetOutcome) :
    PostResult × Nat :=
  match endpoint 0 with
  | .requestError m =>
    ({ success := false, error := some ("Error making tweet request: " ++ m) }, 1)
  | .resp r =>
    if r.status_code = 201 then
      match r.json with
      | some d => ({ success := true, tweet_id := d.id, text := d.text }, 1)
      | none =>
        ({ success := false, error := some "Error parsing tweet response JSON" }, 1)
    else
      ({ success := false,
         error := some ("Failed to post tweet - Status: " ++ toString r.status_code),
         status_code := some r.status_code,
         response_body := some r.text }, 1)

/-- The four OAuth2 environment variables read by `post_tweet`. -/
structure OAuthEnv where
  client_id : Option String
  client_secret : Option String
  redirect_url : Option String
  refresh_token : Option String
deriving DecidableEq, Repr

/-- `post_tweet(text, in_reply_to)` from poster.py lines 11-39.
`token_result` is the value returned by `_get_access_token` (an HTTP
exchange against the token URL; `none` covers every failure path of that
helper).  With a credential missing/empty, or with no access token, the
function returns before any create-post request (0 attempts); otherwise it
delegates to `_post_tweet_with_token`. -/
def post_tweet (env : OAuthEnv) (token_result : Option String)
    (text : String) (in_reply_to : Option String)
    (endpoint : Nat → NetOutcome) : PostResult × Nat :=
  if !(pyTruthy env.client_id && pyTruthy env.client_secret &&
       pyTruthy env.redirect_url && pyTruthy env.refresh_token) then
    ({ success := false,
       error := some "Missing required environment variables: X_CLIENT_ID, X_CLIENT_SECRET, X_REDIRECT_URL, X_REFRESH_TOKEN" }, 0)
  else
    match token_result with
    | none => ({ success := false, error := some "Failed to obtain access token" }, 0)
    | some tok => post_tweet_with_token text tok in_reply_to endpoint

/-! ## State files (main.py and telegram_processor.py) -/

/-- A draft record as stored in pending_approvals.json and passed to the
Telegram and posting functions (telegram_processor.py candidate dict;
`created_at`/`approved_at` timestamps are irrelevant to every claim and
omitted). -/
structure Draft where
  tweet_id : String
  author : String
  text : String
  original_text : String
  url : String
deriving DecidableEq, Repr

/-- What opening and JSON-parsing a state file can yield, seen from the
`try` blocks in the source: the file is absent (`FileNotFoundError`), the
open/read itself fails with another `OSError`/decode error (permission
denied, undecodable bytes — the `msg` names the exception), the content is
not valid JSON (`json.JSONDecodeError`), or it parses to a value. -/
inductive StateFile (α : Type) where
  | missing
  | denied (msg : String)
  | malformed
  | parsed (v : α)
deriving DecidableEq

/-- A Python call that either returns normally or raises an uncaught
exception out of the function. -/
inductive PyResult (α : Type) where
  | ok (v : α)
  | exn (msg : String)
deriving DecidableEq, Repr

/-- `load_state()` from main.py lines 16-24: `except FileNotFoundError`
and `except json.JSONDecodeError` both return `[]`; any other exception
(e.g. `PermissionError` from `open`) is not caught and propagates. -/
def load_state : StateFile (List String) → PyResult (List String)
  | .missing => .ok []
  | .denied m => .exn m
  | .malformed => .ok []
  | .parsed v => .ok v

/-- `load_pending()` from telegram_processor.py lines 25-31: catches
`(FileNotFoundError, json.JSONDecodeError)` returning `[]`; anything else
propagates. -/
def load_pending : StateFile (List Draft) → PyResult (List Draft)
  | .missing => .ok []
  | .denied m => .exn m
  | .malformed => .ok []
  | .parsed v => .ok v

/-- `load_replied()` from telegram_processor.py lines 40-46: catches
`(FileNotFoundError, json.JSONDecodeError)` returning `[]`; anything else
propagates. -/
def load_replied : StateFile (List String) → PyResult (List String)
  | .missing => .ok []
  | .denied m => .exn m
  | .malformed => .ok []
  | .parsed v => .ok v

/-- `save_replied(tweet_id)` from telegram_processor.py lines 49-55,
expressed on the current contents of replied_tweets.json: append the id
only if it is not already present. -/
def save_replied (replied : List String) (tweet_id : String) : List String :=
  if tweet_id ∈ replied then replied else replied ++ [tweet_id]

/-- `save_state(tweet_id)` from main.py lines 27-33, expressed on the
current contents of state.json: unconditional append. -/
def save_state (replied_ids : List String) (tweet_id : String) : List String :=
  replied_ids ++ [tweet_id]

/-- `process_approved_drafts()` from telegram_processor.py lines 150-181,
expressed on the file contents.  The loop runs over `pending[:1]` (the head
draft only).  `post` is the `post_tweet` call for that draft; its return
value is only printed, so the subsequent `save_replied` and
`pending.remove(draft)` run whatever the publish outcome was
(`post_tweet` returns error dictionaries instead of raising). -/
def process_approved_drafts (pending : List Draft) (replied : List String)
    (post : Draft → PostResult) : List Draft × List String :=
  match pending with
  | [] => (pending, replied)
  | d :: _ =>
    let _resp := post d
    (pending.erase d, save_replied replied d.tweet_id)

/-! ## Discovery fallback chains (main.py lines 72-77, dev_once.py lines
16-21) -/

/-- The discovery strategies the repository chains. -/
inductive Strategy where
  | kolRecent
  | recentTopics
  | pageScrape
deriving DecidableEq, Repr

/-- The chain in main.py lines 73-76 (also telegram_processor.py lines
69-71): `posts = search_recent_topics(...)` and, only `if not posts`,
`posts = search_posts(...)`.  The arguments are the results each strategy
would return; the second component records which strategies were invoked,
in order. -/
def collect_main {α : Type} (api_posts scraped_posts : List α) :
    List α × List Strategy :=
  if api_posts.isEmpty then (scraped_posts, [.recentTopics, .pageScrape])
  else (api_posts, [.recentTopics])

/-- The chain in dev_once.py lines 17-21: `search_kol_recent`, then if
empty `search_recent_topics`, then if still empty `search_posts`. -/
def collect_dev {α : Type} (kol_posts topic_posts scraped_posts : List α) :
    List α × List Strategy :=
  if kol_posts.isEmpty then
    if topic_posts.isEmpty then
      (scraped_posts, [.kolRecent, .recentTopics, .pageScrape])
    else (topic_posts, [.kolRecent, .recentTopics])
  else (kol_posts, [.kolRecent])

/-! ## telegram_bot.py -/

/-- A Telegram callback query as send_drafts_async reads it:
`callback_query.id`, `callback_query.message.message_id`,
`callback_query.data`. -/
structure CallbackQuery where
  id : String
  message_id : Nat
  data : String
deriving DecidableEq, Repr

/-- A Telegram update: its `update_id` and optional `callback_query`. -/
structure Update where
  update_id : Nat
  callback_query : Option CallbackQuery
deriving DecidableEq, Repr

/-- The tri-state outcome dictionary of send_drafts_async:
`action: approve` (with `tweet_id` and `text`), `action: skip`, or
`action: timeout`. -/
inductive Decision where
  | approve (tweet_id : String) (text : String)
  | skip
  | timeout
deriving DecidableEq, Repr

/-- The Telegram `getUpdates` exchange: the server holds the queue of
not-yet-confirmed updates; passing `offset = n` confirms (discards) every
update with `update_id < n`, and the remaining queue is delivered.  With
`offset = None` nothing is confirmed and the whole pending queue is
delivered.  Returns (delivered updates, new server queue). -/
def get_updates (server : List Update) (offset : Option Nat) :
    List Update × List Update :=
  match offset with
  | none => (server, server)
  | some n =>
    let remaining := server.filter (fun u => decide (n ≤ u.update_id))
    (remaining, remaining)

/-- The body of the `if upd.callback_query ...` branch of
send_drafts_async for one callback `data` string: `data.startswith
("approve")` returns the approve dictionary with
`tweet_id = data.split(":")[1]` (an `IndexError` if `data` has no colon)
and `text = drafts[0]["text"]`; `data.startswith("skip")` returns skip;
otherwise the update is ignored. -/
def callback_action (data : String) (first_text : String) :
    Option (PyResult Decision) :=
  if pyStartswith "approve".data data.data then
    match (pySplitOn ':' data.data)[1]? with
    | some seg => some (.ok (.approve (String.mk seg) first_text))
    | none => some (.exn "IndexError")
  else if pyStartswith "skip".data data.data then some (.ok .skip)
  else none

/-- The `for upd in updates` loop of send_drafts_async: the in-memory
`offset` advances to `update_id + 1` for every scanned update; the first
update whose callback query targets the sent message and carries an
approve/skip payload ends the call. -/
def scan_updates (first_text : String) (msg_id : Nat) (offset : Option Nat) :
    List Update → Option (PyResult Decision) × Option Nat
  | [] => (none, offset)
  | u :: rest =>
    let offset' := some (u.update_id + 1)
    match u.callback_query with
    | some cb =>
      if cb.message_id = msg_id then
        match callback_action cb.data first_text with
        | some r => (some r, offset')
        | none => scan_updates first_text msg_id offset' rest
      else scan_updates first_text msg_id offset' rest
    | none => scan_updates first_text msg_id offset' rest

/-- The polling loop of send_drafts_async: `while time.time() - start < 60`
around `get_updates` / scan / `asyncio.sleep(2)`.  Each iteration costs the
2-second sleep, so the 60-second window admits at most 30 polls; the fuel
argument is the number of polls remaining.  The in-memory `offset` starts
at `None` on every call and is never written anywhere durable. -/
def send_drafts_loop (first_text : String) (msg_id : Nat) :
    Nat → List Update → Option Nat → PyResult Decision × List Update
  | 0, server, _ => (.ok .timeout, server)
  | fuel + 1, server, offset =>
    let delivered := get_updates server offset
    match scan_updates first_text msg_id offset delivered.1 with
    | (some r, _) => (r, delivered.2)
    | (none, offset') => send_drafts_loop first_text msg_id fuel delivered.2 offset'

/-- The inline keyboard send_drafts_async attaches to its single outbound
message: both buttons carry `drafts[0]["tweet_id"]` in their callback data,
whatever the rest of the list holds; an empty list raises `IndexError`. -/
def draft_keyboard (drafts : List Draft) : Option (List String) :=
  match drafts with
  | [] => none
  | d0 :: _ => some ["approve:" ++ d0.tweet_id, "skip:" ++ d0.tweet_id]

/-- `send_drafts(drafts)` / send_drafts_async from telegram_bot.py lines
14-45.  `msg_id` is the message id Telegram assigned to the outbound drafts
message; `server` is the queue of updates that arrive during the call;
`durable_offset` is the content of the only durable cursor file in the
repository (tele_router.py OFFSET_FILE) — telegram_bot.py performs no file
I/O at all, so it is returned unchanged.  Returns the decision, the new
server queue, and the durable cursor. -/
def send_drafts (drafts : List Draft) (msg_id : Nat) (server : List Update)
    (durable_offset : Option Nat) :
    PyResult Decision × List Update × Option Nat :=
  match drafts with
  | [] => (.exn "IndexError", server, durable_offset)
  | d0 :: _ =>
    let r := send_drafts_loop d0.text msg_id 30 server none
    (r.1, r.2, durable_offset)

/-! ## main.py orchestration tail (lines 129-158) -/

/-- What main() does with the approval result: on `approve` it calls
`post_tweet(approved["text"], in_reply_to=approved["tweet_id"])` and then,
if both fields are truthy, appends the id to state.json via `save_state`;
on `skip` or `timeout` it returns before any of that.  The first component
is the create-post request issued (`none` = `post_tweet` never invoked). -/
def main_after_approval (approval : Decision) (state : List String) :
    Option (String × Option String) × List String :=
  match approval with
  | .approve tid txt =>
    (some (txt, some tid),
      if txt.isEmpty || tid.isEmpty then state else save_state state tid)
  | .skip => (none, state)
  | .timeout => (none, state)

/-! ## Helper lemmas about the Python string primitives -/

theorem pySplitWsAux_ne_nil_of_acc :
    ∀ (l acc : List Char), acc ≠ [] → pySplitWsAux acc l ≠ [] := by
  intro l
  induction l with
  | nil =>
    intro acc h
    simp [pySplitWsAux, h]
  | cons c cs ih =>
    intro acc h
    by_cases hw : c.isWhitespace
    · simp [pySplitWsAux, hw, h]
    · simpa [pySplitWsAux, hw] using ih (c :: acc) (by simp)

theorem pySplitWsAux_ne_nil_of_ex :
    ∀ (l acc : List Char), (∃ c ∈ l, c.isWhitespace = false) →
      pySplitWsAux acc l ≠ [] := by
  intro l
  induction l with
  | nil =>
    intro acc h
    obtain ⟨c, hc, _⟩ := h
    exact absurd hc (List.not_mem_nil c)
  | cons c cs ih =>
    intro acc h
    obtain ⟨x, hx, hxw⟩ := h
    by_cases hw : c.isWhitespace
    · have hxs : x ∈ cs := by
        rcases List.mem_cons.mp hx with rfl | hm
        · rw [hw] at hxw; cases hxw
        · exact hm
      by_cases ha : acc.isEmpty
      · simpa [pySplitWsAux, hw, ha] using ih [] ⟨x, hxs, hxw⟩
      · simp [pySplitWsAux, hw, ha]
    · simpa [pySplitWsAux, hw] using pySplitWsAux_ne_nil_of_acc cs (c :: acc) (by simp)

theorem mem_pySplitWsAux_ne_nil :
    ∀ (l acc w : List Char), w ∈ pySplitWsAux acc l → w ≠ [] := by
  intro l
  induction l with
  | nil =>
    intro acc w hw
    by_cases ha : acc.isEmpty
    · simp [pySplitWsAux, ha] at hw
    · have : w = acc.reverse := by simpa [pySplitWsAux, ha] using hw
      subst this
      simpa using fun h => ha (by simp [h, List.isEmpty_iff])
  | cons c cs ih =>
    intro acc w hw
    by_cases hwsp : c.isWhitespace
    · by_cases ha : acc.isEmpty
      · exact ih [] w (by simpa [pySplitWsAux, hwsp, ha] using hw)
      · rw [pySplitWsAux] at hw
        simp only [hwsp, if_true, ha, if_false] at hw
        rcases List.mem_cons.mp hw with rfl | hm
        · simpa using fun h => ha (by simp [h, List.isEmpty_iff])
        · exact ih [] w hm
    · exact ih (c :: acc) w (by simpa [pySplitWsAux, hwsp] using hw)

theorem pyJoinSpace_ne_nil (w : List Char) (ws : List (List Char))
    (hw : w ≠ []) : pyJoinSpace (w :: ws) ≠ [] := by
  cases ws with
  | nil => simpa [pyJoinSpace] using hw
  | cons w2 rest => simp [pyJoinSpace]

theorem exists_nonws_dropWhile :
    ∀ l : List Char, (∃ c ∈ l, c.isWhitespace = false) →
      ∃ c ∈ l.dropWhile Char.isWhitespace, c.isWhitespace = false := by
  intro l
  induction l with
  | nil =>
    intro h
    obtain ⟨c, hc, _⟩ := h
    exact absurd hc (List.not_mem_nil c)
  | cons c cs ih =>
    intro h
    obtain ⟨x, hx, hxw⟩ := h
    by_cases hw : c.isWhitespace
    · have hxs : x ∈ cs := by
        rcases List.mem_cons.mp hx with rfl | hm
        · rw [hw] at hxw; cases hxw
        · exact hm
      simpa [List.dropWhile_cons, hw] using ih ⟨x, hxs, hxw⟩
    · exact ⟨x, by simpa [List.dropWhile_cons, hw] using hx, hxw⟩

theorem exists_nonws_strip (l : List Char)
    (h : ∃ c ∈ l, c.isWhitespace = false) :
    ∃ c ∈ pyStripChars l, c.isWhitespace = false := by
  unfold pyStripChars
  have h1 := exists_nonws_dropWhile l h
  have h2 : ∃ c ∈ (l.dropWhile Char.isWhitespace).reverse, c.isWhitespace = false := by
    obtain ⟨c, hc, hcw⟩ := h1
    exact ⟨c, List.mem_reverse.mpr hc, hcw⟩
  have h3 := exists_nonws_dropWhile _ h2
  obtain ⟨c, hc, hcw⟩ := h3
  exact ⟨c, List.mem_reverse.mpr hc, hcw⟩

theorem string_mk_ne_empty (l : List Char) (h : l ≠ []) : String.mk l ≠ "" := by
  intro he
  exact h (congrArg String.data he)

/-! ## C4: the generated reply never exceeds 200 characters -/

/-- C4: for every input post text and every raw model output, the string
returned by `write_reply` has length at most 200 characters after the
whitespace-collapsing and hard truncation post-processing. -/
theorem write_reply_length_le_200 (post_text model_output : String) :
    (write_reply post_text model_output).length ≤ 200 := by
  unfold write_reply
  split
  · decide
  · show (String.mk _).length ≤ 200
    have h : ∀ l : List Char, (String.mk (l.take 200)).length ≤ 200 := by
      intro l
      show (l.take 200).length ≤ 200
      simp [List.length_take]
    exact h _

/-! ## C6: emptiness of the generated reply -/

/-- C6 counterexample: the non-blank input "hello" together with an empty
raw model output makes `write_reply` return the empty string, refuting the
claim that a non-blank input always yields a non-empty reply. -/
theorem write_reply_empty_on_empty_model_cx :
    write_reply "hello" "" = "" ∧ (pyStripChars "hello".data).isEmpty = false := by
  decide

/-- C6 amended: a blank input yields the canned fallback reply, the
fallback is non-empty, and a non-blank model output (one containing some
non-whitespace character) yields a non-empty reply; only an all-whitespace
model output can produce an empty reply. -/
theorem write_reply_nonempty_amended (post_text model_output : String) :
    ((pyStripChars post_text.data).isEmpty = true →
      write_reply post_text model_output = FALLBACK_REPLY) ∧
    FALLBACK_REPLY ≠ "" ∧
    ((∃ c ∈ model_output.data, c.isWhitespace = false) →
      write_reply post_text model_output ≠ "") := by
  refine ⟨?_, by decide, ?_⟩
  · intro h
    simp [write_reply, h]
  · intro h
    by_cases hb : (pyStripChars post_text.data).isEmpty
    · simp only [write_reply, hb, if_true]
      decide
    · simp only [write_reply, hb, if_false]
      have hwords : pySplitWs (pyStripChars model_output.data) ≠ [] :=
        pySplitWsAux_ne_nil_of_ex _ [] (exists_nonws_strip _ h)
      obtain ⟨w, ws, hws⟩ := List.exists_cons_of_ne_nil hwords
      have hw : w ≠ [] := mem_pySplitWsAux_ne_nil _ [] w (by rw [← pySplitWs, hws]; simp)
      have hjoin : pyJoinSpace (pySplitWs (pyStripChars model_output.data)) ≠ [] := by
        rw [hws]
        exact pyJoinSpace_ne_nil w ws hw
      have htake : (pyJoinSpace (pySplitWs (pyStripChars model_output.data))).take 200 ≠ [] := by
        simp [List.take_eq_nil_iff, hjoin]
      exact string_mk_ne_empty _ htake

/-- C6 witness: a concrete non-blank post with the model output "ok"
produces a non-empty reply, via the amended theorem. -/
theorem write_reply_nonempty_witness : write_reply "hi" "ok" ≠ "" :=
  (write_reply_nonempty_amended "hi" "ok").2.2 ⟨'o', by decide, by decide⟩

/-! ## C10: save_replied is idempotent, save_state is not -/

/-- C10: `save_replied` is idempotent — re-adding an id already present
leaves the stored list unchanged, applying it twice equals applying it
once, and it preserves freedom from duplicates — whereas `save_state`
appends unconditionally. -/
theorem save_replied_dedup (r : List String) (t : String) :
    save_replied (save_replied r t) t = save_replied r t ∧
    (t ∈ r → save_replied r t = r) ∧
    (r.Nodup → (save_replied r t).Nodup) ∧
    save_state r t = r ++ [t] := by
  refine ⟨?_, ?_, ?_, rfl⟩
  · by_cases h : t ∈ r
    · simp [save_replied, h]
    · simp [save_replied, h]
  · intro h
    simp [save_replied, h]
  · intro h
    by_cases ht : t ∈ r
    · simpa [save_replied, ht] using h
    · simp [save_replied, ht, List.nodup_append, h]

/-- C10 witness: concrete instances discharging the hypotheses of the
idempotence theorem. -/
theorem save_replied_dedup_witness :
    save_replied ["42"] "42" = ["42"] ∧ (save_replied ["42"] "7").Nodup :=
  ⟨(save_replied_dedup ["42"] "42").2.1 (by decide),
    (save_replied_dedup ["42"] "7").2.2.1 (by decide)⟩

/-! ## C2: publish attempt marks replied and removes from pending -/

/-- C2: for the draft at the head of the pending list (the only one a run
of `process_approved_drafts` attempts), the attempt adds its tweet id to
the replied list and removes the draft from pending exactly once, and the
resulting state is identical whatever result the publish call returns. -/
theorem process_approved_marks_replied_and_removes (d : Draft)
    (rest : List Draft) (replied : List String)
    (post post2 : Draft → PostResult) :
    d.tweet_id ∈ (process_approved_drafts (d :: rest) replied post).2 ∧
    (process_approved_drafts (d :: rest) replied post).1 = rest ∧
    process_approved_drafts (d :: rest) replied post =
      process_approved_drafts (d :: rest) replied post2 := by
  refine ⟨?_, ?_, rfl⟩
  · by_cases h : d.tweet_id ∈ replied <;>
      simp [process_approved_drafts, save_replied, h]
  · simp [process_approved_drafts]

/-! ## C8: state loading on missing, unreadable or malformed files -/

/-- C8 counterexample: a state file that exists but cannot be read (for
example `open` raising `PermissionError`) makes all three loaders raise —
only `FileNotFoundError` and `json.JSONDecodeError` are caught — refuting
the claim that an unreadable file is recovered as the empty collection. -/
theorem load_unreadable_raises_cx :
    load_state (.denied "PermissionError") = .exn "PermissionError" ∧
    load_replied (.denied "PermissionError") = .exn "PermissionError" ∧
    load_pending (.denied "PermissionError") = .exn "PermissionError" ∧
    ¬ load_state (.denied "PermissionError") = .ok [] := by
  decide

/-- C8 amended: for a state file that is missing or contains malformed
JSON, the loaders return the empty collection rather than raising; other
read failures (e.g. permission errors) still propagate. -/
theorem load_empty_on_missing_or_malformed
    (f g : StateFile (List String)) (p : StateFile (List Draft))
    (hf : f = .missing ∨ f = .malformed)
    (hg : g = .missing ∨ g = .malformed)
    (hp : p = .missing ∨ p = .malformed) :
    load_state f = .ok [] ∧ load_replied g = .ok [] ∧ load_pending p = .ok [] := by
  rcases hf with rfl | rfl <;> rcases hg with rfl | rfl <;>
    rcases hp with rfl | rfl <;> exact ⟨rfl, rfl, rfl⟩

/-- C8 witness: the amended theorem at concrete missing/malformed files. -/
theorem load_empty_witness :
    load_state .missing = .ok [] ∧ load_replied .malformed = .ok [] ∧
      load_pending .missing = .ok [] :=
  load_empty_on_missing_or_malformed _ _ _ (Or.inl rfl) (Or.inr rfl) (Or.inl rfl)

/-! ## C7: discovery fallback chain -/

/-- C7: discovery strategies are tried in a fixed priority order and the
returned batch comes from exactly one strategy: in main.py the scraper
result is used exactly when the API result is empty, and in dev_once.py
the page scraper is invoked exactly when both API strategies came back
empty — never merging results of several strategies. -/
theorem collect_fallback_chain {α : Type}
    (api scrape kol topics scr : List α) :
    ((collect_main api scrape).1 = api ∨ (collect_main api scrape).1 = scrape) ∧
    ((collect_main api scrape).1 = if api.isEmpty then scrape else api) ∧
    (Strategy.pageScrape ∈ (collect_main api scrape).2 ↔ api = []) ∧
    ((collect_dev kol topics scr).1 = kol ∨
      (collect_dev kol topics scr).1 = topics ∨
      (collect_dev kol topics scr).1 = scr) ∧
    (Strategy.pageScrape ∈ (collect_dev kol topics scr).2 ↔
      (kol = [] ∧ topics = [])) ∧
    (Strategy.recentTopics ∈ (collect_dev kol topics scr).2 ↔ kol = []) := by
  refine ⟨?_, ?_, ?_, ?_, ?_, ?_⟩
  · by_cases h : api.isEmpty <;> simp [collect_main, h]
  · by_cases h : api.isEmpty <;> simp [collect_main, h]
  · by_cases h : api.isEmpty <;> simp [collect_main, h, List.isEmpty_iff] <;>
      simp [List.isEmpty_iff] at h <;> simp [h]
  · by_cases h1 : kol.isEmpty <;> by_cases h2 : topics.isEmpty <;>
      simp [collect_dev, h1, h2]
  · by_cases h1 : kol.isEmpty <;> by_cases h2 : topics.isEmpty <;>
      simp [collect_dev, h1, h2, List.isEmpty_iff] <;>
      simp [List.isEmpty_iff] at h1 h2 <;> simp [h1, h2]
  · by_cases h1 : kol.isEmpty <;> by_cases h2 : topics.isEmpty <;>
      simp [collect_dev, h1, h2, List.isEmpty_iff] <;>
      simp [List.isEmpty_iff] at h1 h2 <;> simp [h1, h2]

/-! ## C1: publish retry behaviour -/

/-- An endpoint that reports HTTP 429 on every create-post request. -/
def ep429 : Nat → NetOutcome :=
  fun _ => .resp { status_code := 429, text := "Too Many Requests", json := none }

/-- An environment with all four OAuth2 credentials present. -/
def full_env : OAuthEnv :=
  { client_id := some "cid", client_secret := some "sec",
    redirect_url := some "ru", refresh_token := some "rt" }

/-- C1 counterexample: against an endpoint that returns 429 on every
request, `post_tweet` (with credentials and token available) returns
failure after exactly one create-post attempt — there is no retry loop in
poster.py — refuting the claimed 3 attempts with linear backoff. -/
theorem publish_single_attempt_cx :
    (post_tweet full_env (some "access") "hello" none ep429).1.success = false ∧
    (post_tweet full_env (some "access") "hello" none ep429).2 = 1 ∧
    ¬ (post_tweet full_env (some "access") "hello" none ep429).2 = 3 := by
  decide

/-- C1 amended: `post_tweet` performs no retry and no backoff: with
credentials present and an access token obtained it issues the create-post
request exactly once, and on a transient failure status (429, 500, 502,
503 or 504) it returns `success = false` with the raw status and body
after that single attempt — it never hangs and never throws. -/
theorem publish_no_retry_amended (env : OAuthEnv) (tok text : String)
    (in_reply_to : Option String) (endpoint : Nat → NetOutcome)
    (s : Nat) (body : String) (j : Option TweetData)
    (henv : pyTruthy env.client_id = true ∧ pyTruthy env.client_secret = true ∧
      pyTruthy env.redirect_url = true ∧ pyTruthy env.refresh_token = true)
    (hep : endpoint 0 = .resp { status_code := s, text := body, json := j })
    (hs : s ∈ [429, 500, 502, 503, 504]) :
    post_tweet env (some tok) text in_reply_to endpoint =
      post_tweet_with_token text tok in_reply_to endpoint ∧
    (post_tweet_with_token text tok in_reply_to endpoint).1.success = false ∧
    (post_tweet_with_token text tok in_reply_to endpoint).1.status_code = some s ∧
    (post_tweet_with_token text tok in_reply_to endpoint).1.response_body = some body ∧
    (post_tweet_with_token text tok in_reply_to endpoint).2 = 1 := by
  obtain ⟨h1, h2, h3, h4⟩ := henv
  have hds : s = 429 ∨ s = 500 ∨ s = 502 ∨ s = 503 ∨ s = 504 := by simpa using hs
  have hne : ¬ s = 201 := by
    rcases hds with rfl | rfl | rfl | rfl | rfl <;> decide
  refine ⟨by simp [post_tweet, h1, h2, h3, h4], ?_⟩
  simp [post_tweet_with_token, hep, hne]

/-- C1 witness: the amended theorem instantiated at the persistently
failing 429 endpoint. -/
theorem publish_no_retry_witness :
    (post_tweet_with_token "hello" "access" none ep429).1.success = false ∧
    (post_tweet_with_token "hello" "access" none ep429).2 = 1 :=
  ⟨(publish_no_retry_amended full_env "access" "hello" none ep429 429
      "Too Many Requests" none (by decide) rfl (by decide)).2.1,
    (publish_no_retry_amended full_env "access" "hello" none ep429 429
      "Too Many Requests" none (by decide) rfl (by decide)).2.2.2.2⟩

/-! ## C3: durability of the approval-gate poll cursor -/

/-- C3 counterexample: send_drafts keeps its poll cursor only in memory.
A first call consumes an approve interaction and returns, the durable
offset file is untouched (still `none`), the update is still unconfirmed
on the server, and a second call after a restart processes the very same
interaction again — double-processing, refuting the claimed durability. -/
theorem send_drafts_cursor_not_durable_cx :
    (send_drafts [⟨"42", "auth", "hi", "", ""⟩] 7
        [⟨1, some ⟨"cbid", 7, "approve:42"⟩⟩] none).1 = .ok (.approve "42" "hi") ∧
    (send_drafts [⟨"42", "auth", "hi", "", ""⟩] 7
        [⟨1, some ⟨"cbid", 7, "approve:42"⟩⟩] none).2.2 = none ∧
    (send_drafts [⟨"42", "auth", "hi", "", ""⟩] 7
        (send_drafts [⟨"42", "auth", "hi", "", ""⟩] 7
          [⟨1, some ⟨"cbid", 7, "approve:42"⟩⟩] none).2.1
        (send_drafts [⟨"42", "auth", "hi", "", ""⟩] 7
          [⟨1, some ⟨"cbid", 7, "approve:42"⟩⟩] none).2.2).1
      = .ok (.approve "42" "hi") := by
  decide

/-- C3 amended: `send_drafts` never writes the poll cursor to durable
storage — whatever the call does, the durable offset file is returned
exactly as it was — so its offset is a per-call in-memory variable and an
interaction it consumed can be re-delivered after a process restart. -/
theorem send_drafts_never_persists_cursor (drafts : List Draft)
    (msg_id : Nat) (server : List Update) (durable : Option Nat) :
    (send_drafts drafts msg_id server durable).2.2 = durable := by
  cases drafts <;> rfl

/-! ## C5: timeout is terminal and publishes nothing -/

theorem scan_updates_no_match (t : String) (m : Nat) :
    ∀ (l : List Update) (off : Option Nat),
      (∀ u ∈ l, ∀ cb, u.callback_query = some cb → cb.message_id ≠ m) →
      (scan_updates t m off l).1 = none := by
  intro l
  induction l with
  | nil => intro off _; rfl
  | cons u rest ih =>
    intro off h
    have hrest : ∀ v ∈ rest, ∀ cb, v.callback_query = some cb → cb.message_id ≠ m :=
      fun v hv => h v (List.mem_cons_of_mem _ hv)
    cases hcb : u.callback_query with
    | none =>
      simpa [scan_updates, hcb] using ih _ hrest
    | some cb =>
      have hne : cb.message_id ≠ m := h u (List.mem_cons_self u rest) cb hcb
      simpa [scan_updates, hcb, hne] using ih _ hrest

theorem send_drafts_loop_no_match (t : String) (m : Nat) :
    ∀ (fuel : Nat) (server : List Update) (off : Option Nat),
      (∀ u ∈ server, ∀ cb, u.callback_query = some cb → cb.message_id ≠ m) →
      (send_drafts_loop t m fuel server off).1 = .ok .timeout := by
  intro fuel
  induction fuel with
  | zero => intro server off _; rfl
  | succ n ih =>
    intro server off h
    have hdeliv : ∀ u ∈ (get_updates server off).1, ∀ cb,
        u.callback_query = some cb → cb.message_id ≠ m := by
      intro u hu
      cases off with
      | none => exact h u hu
      | some k => exact h u (List.mem_of_mem_filter hu)
    have hserver : ∀ u ∈ (get_updates server off).2, ∀ cb,
        u.callback_query = some cb → cb.message_id ≠ m := by
      intro u hu
      cases off with
      | none => exact h u hu
      | some k => exact h u (List.mem_of_mem_filter hu)
    have hscan := scan_updates_no_match t m (get_updates server off).1 off hdeliv
    rw [send_drafts_loop]
    rcases hsc : scan_updates t m off (get_updates server off).1 with ⟨fst, snd⟩
    rw [hsc] at hscan
    simp only at hscan
    subst hscan
    simpa [hsc] using ih (get_updates server off).2 snd hserver

/-- C5: if no interaction event targeting the rendered message arrives
within the polling window, `send_drafts` returns the timeout decision, and
the orchestrator tail of main.py then issues no create-post request and
leaves the replied state unchanged. -/
theorem timeout_never_publishes (d0 : Draft) (rest : List Draft)
    (msg_id : Nat) (server : List Update) (durable : Option Nat)
    (state : List String)
    (hnm : ∀ u ∈ server, ∀ cb, u.callback_query = some cb → cb.message_id ≠ msg_id) :
    (send_drafts (d0 :: rest) msg_id server durable).1 = .ok .timeout ∧
    main_after_approval .timeout state = (none, state) := by
  refine ⟨?_, rfl⟩
  show (send_drafts_loop d0.text msg_id 30 server none).1 = .ok .timeout
  exact send_drafts_loop_no_match d0.text msg_id 30 server none hnm

/-- C5 witness: a server whose only interaction targets a different
message (message id 9, ours is 5) yields timeout, and the orchestrator on
timeout posts nothing and keeps the state as it was. -/
theorem timeout_never_publishes_witness :
    (send_drafts [⟨"42", "auth", "hi", "", ""⟩] 5
        [⟨1, some ⟨"cbid", 9, "approve:42"⟩⟩] none).1 = .ok .timeout ∧
    main_after_approval .timeout ["7"] = (none, ["7"]) :=
  timeout_never_publishes ⟨"42", "auth", "hi", "", ""⟩ [] 5
    [⟨1, some ⟨"cbid", 9, "approve:42"⟩⟩] none ["7"]
    (by
      intro u hu cb hcb
      rcases List.mem_singleton.mp hu with rfl
      injection hcb with h
      subst h
      decide)

/-! ## C9: which draft the approval controls and decision refer to -/

theorem pyStartswith_append (p t : List Char) : pyStartswith p (p ++ t) = true := by
  induction p with
  | nil => rfl
  | cons c cs ih => simp [pyStartswith, ih]

theorem pySplitOnAux_of_not_mem (sep : Char) :
    ∀ (l acc : List Char), sep ∉ l → pySplitOnAux sep acc l = [acc.reverse ++ l] := by
  intro l
  induction l with
  | nil => intro acc _; simp [pySplitOnAux]
  | cons c cs ih =>
    intro acc h
    have hc : ¬ c = sep := fun e => h (by rw [e]; exact List.mem_cons_self sep cs)
    rw [pySplitOnAux, if_neg hc, ih (c :: acc) (fun hm => h (List.mem_cons_of_mem _ hm))]
    simp

theorem pySplitOnAux_pre (sep : Char) :
    ∀ (pre : List Char), sep ∉ pre → ∀ (acc tail : List Char),
      pySplitOnAux sep acc (pre ++ sep :: tail) =
        (acc.reverse ++ pre) :: pySplitOnAux sep [] tail := by
  intro pre
  induction pre with
  | nil =>
    intro _ acc tail
    simp [pySplitOnAux]
  | cons c cs ih =>
    intro h acc tail
    have hc : ¬ c = sep := fun e => h (by rw [e]; exact List.mem_cons_self sep cs)
    rw [List.cons_append, pySplitOnAux, if_neg hc,
      ih (fun hm => h (List.mem_cons_of_mem _ hm)) (c :: acc) tail]
    simp

theorem callback_action_approve (id txt : String) (h : ':' ∉ id.data) :
    callback_action ("approve:" ++ id) txt = some (.ok (.approve id txt)) := by
  have hdata : ("approve:" ++ id).data = "approve".data ++ ':' :: id.data := by
    rw [String.data_append]
    have : "approve:".data = "approve".data ++ [':'] := by decide
    rw [this, List.append_assoc]
    rfl
  unfold callback_action
  rw [hdata, pyStartswith_append, if_pos rfl]
  unfold pySplitOn
  rw [pySplitOnAux_pre ':' "approve".data (by decide) [] id.data,
    pySplitOnAux_of_not_mem ':' id.data [] h]
  simp

/-- C9 amended: the approve/skip controls encode only the first draft of
the list, and when the operator presses approve, the decision carries the
first draft text and — whenever the first draft tweet id contains no colon
(tweet ids in this repository are decimal digit strings) — that exact
tweet id, regardless of the remaining drafts.  (With a colon in the id,
`data.split(":")[1]` keeps only the segment before the first colon of the
id, see the counterexample.) -/
theorem send_drafts_approve_first_draft (d0 : Draft) (rest : List Draft)
    (msg_id uid : Nat) (cb_id : String) (durable : Option Nat)
    (h : ':' ∉ d0.tweet_id.data) :
    draft_keyboard (d0 :: rest) =
      some ["approve:" ++ d0.tweet_id, "skip:" ++ d0.tweet_id] ∧
    (send_drafts (d0 :: rest) msg_id
        [⟨uid, some ⟨cb_id, msg_id, "approve:" ++ d0.tweet_id⟩⟩] durable).1 =
      .ok (.approve d0.tweet_id d0.text) := by
  refine ⟨rfl, ?_⟩
  show (send_drafts_loop d0.text msg_id 30
      [⟨uid, some ⟨cb_id, msg_id, "approve:" ++ d0.tweet_id⟩⟩] none).1 = _
  rw [show (30 : Nat) = 29 + 1 from rfl, send_drafts_loop]
  simp only [get_updates, scan_updates]
  rw [callback_action_approve d0.tweet_id d0.text h]
  simp

/-- C9 counterexample: with a first draft whose tweet id contains a colon,
the approve decision returns only the id segment before that colon — "a"
instead of "a:b" — refuting the claim that an approve decision always
returns the first draft tweet id. -/
theorem approve_truncates_colon_id_cx :
    draft_keyboard [⟨"a:b", "auth", "txt", "", ""⟩] =
      some ["approve:a:b", "skip:a:b"] ∧
    (send_drafts [⟨"a:b", "auth", "txt", "", ""⟩] 1
        [⟨1, some ⟨"cb", 1, "approve:a:b"⟩⟩] none).1 = .ok (.approve "a" "txt") ∧
    "a" ≠ "a:b" := by
  decide

/-- C9 witness: two drafts in the list, the colon-free first one is the
one encoded and returned. -/
theorem send_drafts_approve_first_draft_witness :
    draft_keyboard [⟨"42", "auth", "hi", "", ""⟩, ⟨"43", "other", "yo", "", ""⟩] =
      some ["approve:" ++ "42", "skip:" ++ "42"] ∧
    (send_drafts [⟨"42", "auth", "hi", "", ""⟩, ⟨"43", "other", "yo", "", ""⟩] 3
        [⟨1, some ⟨"cb", 3, "approve:" ++ "42"⟩⟩] none).1 =
      .ok (.approve "42" "hi") :=
  send_drafts_approve_first_draft ⟨"42", "auth", "hi", "", ""⟩
    [⟨"43", "other", "yo", "", ""⟩] 3 1 "cb" none (by decide)

end Orbit
